import Mathlib

/-!
Shallow embedding of the stateful client logic of the GreenSync frontend
(`src/screens/SignUpScreen` section of `SelectionScreen.js`, `LoginScreen.js`,
`SelectionScreen.js`, `UserContext.js`, and the boolean view-state toggles of
`DashboardTabs.js` / `InsightsScreen.js`).

The session is the `UserContext` username: `Option String`, `none` until a
form sets it.  Alerts are recorded as an optional error tag; navigation is
recorded as a boolean plus the parameters passed.  JavaScript falsiness of a
string (`!username`) is emptiness.
-/

/-- The two `Platform.OS` values the code branches on (`'web'` vs native). -/
inductive JsPlatform
  | web
  | native
  deriving DecidableEq

/-- The three failure alerts of `handleSignUp` ("Missing Info",
"Invalid Email", "Terms Required"). -/
inductive SignUpError
  | MissingField
  | InvalidEmail
  | TermsNotAccepted
  deriving DecidableEq

/-- The form state read by `handleSignUp`: `username`, `email`, `password`,
`agree`. -/
structure SignUpInput where
  username : String
  email : String
  password : String
  agree : Bool
  deriving DecidableEq

/-- Observable effects of one `handleSignUp` call: which failure alert was
shown (if any), the `UserContext` username afterwards, whether
`navigation.navigate('Dashboard', ...)` ran, and the `username` navigation
parameter it was given. -/
structure SignUpOutcome where
  error : Option SignUpError
  sessionAfter : Option String
  navigatedToDashboard : Bool
  navParamUsername : Option String
  deriving DecidableEq

/-- `charsStartWith needle hay`: `needle` is an initial segment of `hay`. -/
def charsStartWith : List Char → List Char → Bool
  | [], _ => true
  | _ :: _, [] => false
  | a :: as, b :: bs => a == b && charsStartWith as bs

/-- `charsContain needle hay`: `needle` occurs contiguously in `hay`. -/
def charsContain (needle : List Char) : List Char → Bool
  | [] => needle.isEmpty
  | b :: bs => charsStartWith needle (b :: bs) || charsContain needle bs

/-- JavaScript `hay.includes(needle)` on strings: contiguous-substring test
(the empty needle always matches). -/
def jsIncludes (hay needle : String) : Bool :=
  charsContain needle.toList hay.toList

/-- Split a character list at every occurrence of `sep`, keeping the (possibly
empty) pieces between occurrences — the character-level behaviour of
JavaScript/Lean `splitOn` for a one-character separator. -/
def splitChar (sep : Char) : List Char → List (List Char)
  | [] => [[]]
  | x :: xs =>
    match splitChar sep xs with
    | [] => if x == sep then [[], []] else [[x]]
    | h :: t => if x == sep then [] :: h :: t else (x :: h) :: t

/-- The ECMAScript `\s` character class: TAB, LF, VT, FF, CR, SPACE, NBSP,
OGHAM SPACE MARK, the U+2000–U+200A spaces, LINE SEPARATOR, PARAGRAPH
SEPARATOR, NARROW NO-BREAK SPACE, MEDIUM MATHEMATICAL SPACE, IDEOGRAPHIC
SPACE, and ZERO WIDTH NO-BREAK SPACE (U+FEFF). -/
def jsWhitespaceChar (c : Char) : Bool :=
  let n := c.toNat
  n == 0x9 || n == 0xA || n == 0xB || n == 0xC || n == 0xD || n == 0x20
    || n == 0xA0 || n == 0x1680
    || (Nat.ble 0x2000 n && Nat.ble n 0x200A)
    || n == 0x2028 || n == 0x2029 || n == 0x202F || n == 0x205F
    || n == 0x3000 || n == 0xFEFF

/-- The sign-up email check `/^[^\s@]+@[^\s@]+\.[^\s@]+$/.test(email)`.
A string matches iff it splits as `L ++ "@" ++ M ++ "." ++ R` with `L`, `M`,
`R` non-empty and free of `\s` characters and `'@'`.  Since the character
classes exclude `'@'`, the string must contain exactly one `'@'`; the
`M`/`R` split exists iff the domain part has a `'.'` that is neither its
first nor its last character.  JavaScript `\s` is `jsWhitespaceChar`. -/
def emailRegexTest (e : String) : Bool :=
  match splitChar '@' e.toList with
  | [lp, dom] =>
      !lp.isEmpty
        && lp.all (fun c => ! jsWhitespaceChar c)
        && dom.all (fun c => ! jsWhitespaceChar c)
        && ((dom.drop 1).dropLast.contains '.')
  | _ => false

/-- `handleSignUp` of the sign-up screen.  Checks run in source order:
empty fields, email regex, terms checkbox.  On success the web branch only
alerts and navigates (passing `username` as a navigation parameter); the
native branch additionally calls `setContextUsername(username)` before
navigating. -/
def handleSignUp (p : JsPlatform) (inp : SignUpInput) (session : Option String) :
    SignUpOutcome :=
  if inp.username = "" ∨ inp.email = "" ∨ inp.password = "" then
    { error := some SignUpError.MissingField, sessionAfter := session,
      navigatedToDashboard := false, navParamUsername := none }
  else if emailRegexTest inp.email = false then
    { error := some SignUpError.InvalidEmail, sessionAfter := session,
      navigatedToDashboard := false, navParamUsername := none }
  else if inp.agree = false then
    { error := some SignUpError.TermsNotAccepted, sessionAfter := session,
      navigatedToDashboard := false, navParamUsername := none }
  else
    match p with
    | JsPlatform.web =>
        { error := none, sessionAfter := session,
          navigatedToDashboard := true, navParamUsername := some inp.username }
    | JsPlatform.native =>
        { error := none, sessionAfter := some inp.username,
          navigatedToDashboard := true, navParamUsername := some inp.username }

/-- Observable effects of one `handleLogin` call: whether the "Login Error"
alert fired, the `UserContext` username afterwards, and whether
`navigation.reset` to `Dashboard` ran. -/
structure LoginOutcome where
  errorShown : Bool
  sessionAfter : Option String
  navigatedToDashboard : Bool
  deriving DecidableEq

/-- `handleLogin` of `LoginScreen.js`: on empty username or password it
alerts and returns; otherwise it sets the context username and resets
navigation to `Dashboard`.  The code is platform-independent (only the alert
presentation differs). -/
def handleLogin (username password : String) (session : Option String) :
    LoginOutcome :=
  if username = "" ∨ password = "" then
    { errorShown := true, sessionAfter := session, navigatedToDashboard := false }
  else
    { errorShown := false, sessionAfter := some username, navigatedToDashboard := true }

/-- The three values of the `filter` state of `SelectionScreen`
(`'all' | 'az' | 'popular'`). -/
inductive FilterMode
  | all
  | az
  | popular
  deriving DecidableEq

/-- `handleFilterPress` of `SelectionScreen.js`:
`filter === 'all' ? 'az' : filter === 'az' ? 'popular' : 'all'`. -/
def handleFilterPress (filter : FilterMode) : FilterMode :=
  match filter with
  | FilterMode.all => FilterMode.az
  | FilterMode.az => FilterMode.popular
  | FilterMode.popular => FilterMode.all

/-- One row of the static lettuce catalog.  `image` is the asset path passed
to `require`; `popular` is `none` where the source object has no `popular`
field (JavaScript `undefined`); `placeholder` defaults to `false` likewise. -/
structure Lettuce where
  id : String
  name : String
  image : String
  popular : Option Bool := none
  placeholder : Bool := false
  deriving DecidableEq

/-- The static `originalLettuces` array of `SelectionScreen.js`. -/
def originalLettuces : List Lettuce :=
  [ { id := "1", name := "Romaine", image := "../assets/lettuce_romaine.png",
      popular := some true },
    { id := "2", name := "Butterhead", image := "../assets/lettuce_butterhead.png",
      popular := some false },
    { id := "3", name := "Oak Leaf", image := "../assets/lettuce_oakleaf.png",
      popular := some true },
    { id := "4", name := "Cos", image := "../assets/lettuce_cos.png",
      popular := some false },
    { id := "5", name := "Coming Soon", image := "../assets/coming.png",
      placeholder := true },
    { id := "6", name := "Coming Soon", image := "../assets/coming1.png",
      placeholder := true } ]

/-- Strict code-point lexicographic order on character lists. -/
def charsLt : List Char → List Char → Bool
  | [], [] => false
  | [], _ :: _ => true
  | _ :: _, [] => false
  | a :: as, b :: bs => a < b || (a == b && charsLt as bs)

/-- Model of `a.name.localeCompare(b.name)`: sign of a string comparison.
Modelled as code-point lexicographic order, which agrees with the default
locale collation on every pair of names in the static catalog. -/
def localeCompare (a b : String) : Int :=
  if charsLt a.toList b.toList then -1
  else if charsLt b.toList a.toList then 1
  else 0

/-- JavaScript `s.toLowerCase()`, modelled character-wise by
`Char.toLower` (every catalog name and query in the claims is ASCII). -/
def jsToLowerCase (s : String) : String :=
  ⟨s.toList.map Char.toLower⟩

/-- JavaScript `b.popular - a.popular` as used by the `'popular'` comparator:
booleans coerce to `1`/`0`; if either field is `undefined` the subtraction is
`NaN`, which ECMAScript `SortCompare` treats as `+0`. -/
def popMinus : Option Bool → Option Bool → Int
  | some x, some y => (if x then 1 else 0) - (if y then 1 else 0)
  | _, _ => 0

/-- The comparator passed to `.sort` for each filter mode. -/
def cmpOf (m : FilterMode) (a b : Lettuce) : Int :=
  match m with
  | FilterMode.az => localeCompare a.name b.name
  | FilterMode.popular => popMinus b.popular a.popular
  | FilterMode.all => 0

/-- Insert `a` into an already sorted list, after every element it does not
strictly precede (so equal elements keep their original relative order). -/
def insertStable {α : Type} (lt : α → α → Bool) (a : α) : List α → List α
  | [] => [a]
  | b :: bs => if lt a b then a :: b :: bs else b :: insertStable lt a bs

/-- Stable sort by a JavaScript-style comparator, as ECMAScript
`Array.prototype.sort` (stable since ES2019): `a` precedes `b` exactly when
`cmp a b < 0`, and elements comparing equal keep their original order. -/
def stableSortJs {α : Type} (cmp : α → α → Int) (l : List α) : List α :=
  l.foldl (fun acc a => insertStable (fun x y => cmp x y < 0) a acc) []

/-- The `filteredLettuces` pipeline over an arbitrary catalog:
`catalog.filter(item => item.name.toLowerCase().includes(query.toLowerCase()))`
followed by `.sort` with the mode's comparator. -/
def filteredLettucesOf (catalog : List Lettuce) (q : String) (m : FilterMode) :
    List Lettuce :=
  stableSortJs (cmpOf m)
    (catalog.filter (fun item =>
      jsIncludes (jsToLowerCase item.name) (jsToLowerCase q)))

/-- Result of rendering `SelectionScreen` once: the computed view and the
array object bound to `originalLettuces` afterwards. -/
structure SelectionRender where
  view : List Lettuce
  originalAfter : List Lettuce
  deriving DecidableEq

/-- One evaluation of the `filteredLettuces` expression against the static
catalog.  `Array.prototype.filter` allocates a fresh array; `.sort` then
mutates that fresh array in place and returns it, so the array object bound
to `originalLettuces` is never written. -/
def filteredLettucesRun (q : String) (m : FilterMode) : SelectionRender :=
  let fresh := originalLettuces.filter
    (fun item => jsIncludes (jsToLowerCase item.name) (jsToLowerCase q))
  { view := stableSortJs (cmpOf m) fresh, originalAfter := originalLettuces }

/-- The modal/tooltip visibility toggles (`setAgreeEthics(!agreeEthics)` in
the profile screen, `setShowPhTooltip(!showPhTooltip)` in the insights
screen): replace the flag by its negation. -/
def toggleFlag (b : Bool) : Bool := !b

/-- The first three rows of the static catalog, in their original order —
the sample catalog named by the specification:
`[{Romaine, popular:true}, {Butterhead, popular:false}, {Oak Leaf, popular:true}]`. -/
def sampleCatalog : List Lettuce :=
  [ { id := "1", name := "Romaine", image := "../assets/lettuce_romaine.png",
      popular := some true },
    { id := "2", name := "Butterhead", image := "../assets/lettuce_butterhead.png",
      popular := some false },
    { id := "3", name := "Oak Leaf", image := "../assets/lettuce_oakleaf.png",
      popular := some true } ]

/-- C2: if username, email, or password is the empty string, `handleSignUp`
fails with the MissingField alert, leaves the session username unchanged,
reports no other error, and does not navigate — on either platform. -/
theorem signUp_missingField (p : JsPlatform) (inp : SignUpInput) (s : Option String)
    (h : inp.username = "" ∨ inp.email = "" ∨ inp.password = "") :
    (handleSignUp p inp s).error = some SignUpError.MissingField ∧
    (handleSignUp p inp s).sessionAfter = s ∧
    (handleSignUp p inp s).navigatedToDashboard = false := by
  simp [handleSignUp, if_pos h]

/-- Witness for `signUp_missingField` at the empty username
`("", "x@y.z", "pw", agree := true)` with an existing session `"prev"`. -/
theorem signUp_missingField_witness :
    (handleSignUp JsPlatform.web ⟨"", "x@y.z", "pw", true⟩ (some "prev")).error
        = some SignUpError.MissingField ∧
    (handleSignUp JsPlatform.web ⟨"", "x@y.z", "pw", true⟩ (some "prev")).sessionAfter
        = some "prev" ∧
    (handleSignUp JsPlatform.web ⟨"", "x@y.z", "pw", true⟩ (some "prev")).navigatedToDashboard
        = false :=
  signUp_missingField JsPlatform.web ⟨"", "x@y.z", "pw", true⟩ (some "prev") (Or.inl rfl)

/-- C3: with all three fields non-empty but an email rejected by the
validation regex, `handleSignUp` fails with the InvalidEmail alert, leaves
the session username unchanged, and does not navigate. -/
theorem signUp_invalidEmail (p : JsPlatform) (inp : SignUpInput) (s : Option String)
    (h1 : inp.username ≠ "") (h2 : inp.email ≠ "") (h3 : inp.password ≠ "")
    (h4 : emailRegexTest inp.email = false) :
    (handleSignUp p inp s).error = some SignUpError.InvalidEmail ∧
    (handleSignUp p inp s).sessionAfter = s ∧
    (handleSignUp p inp s).navigatedToDashboard = false := by
  have hor : ¬(inp.username = "" ∨ inp.email = "" ∨ inp.password = "") :=
    fun hc => hc.elim h1 (fun hc2 => hc2.elim h2 h3)
  simp [handleSignUp, if_neg hor, if_pos h4]

/-- Witness for `signUp_invalidEmail` at
`("carol", "not-an-email", "pw", agree := true)` with an empty session. -/
theorem signUp_invalidEmail_witness :
    (handleSignUp JsPlatform.native ⟨"carol", "not-an-email", "pw", true⟩ none).error
        = some SignUpError.InvalidEmail ∧
    (handleSignUp JsPlatform.native ⟨"carol", "not-an-email", "pw", true⟩ none).sessionAfter
        = none ∧
    (handleSignUp JsPlatform.native ⟨"carol", "not-an-email", "pw", true⟩ none).navigatedToDashboard
        = false :=
  signUp_invalidEmail JsPlatform.native ⟨"carol", "not-an-email", "pw", true⟩ none
    (by decide) (by decide) (by decide) (by decide)

/-- C4: with non-empty fields and a regex-valid email but `agree = false`,
`handleSignUp` fails with the TermsNotAccepted alert, leaves the session
username unchanged, and does not navigate. -/
theorem signUp_termsNotAccepted (p : JsPlatform) (inp : SignUpInput) (s : Option String)
    (h1 : inp.username ≠ "") (h2 : inp.email ≠ "") (h3 : inp.password ≠ "")
    (h4 : emailRegexTest inp.email = true) (h5 : inp.agree = false) :
    (handleSignUp p inp s).error = some SignUpError.TermsNotAccepted ∧
    (handleSignUp p inp s).sessionAfter = s ∧
    (handleSignUp p inp s).navigatedToDashboard = false := by
  have hor : ¬(inp.username = "" ∨ inp.email = "" ∨ inp.password = "") :=
    fun hc => hc.elim h1 (fun hc2 => hc2.elim h2 h3)
  have hreg : ¬(emailRegexTest inp.email = false) := by simp [h4]
  simp [handleSignUp, if_neg hor, if_neg hreg, if_pos h5]

/-- Witness for `signUp_termsNotAccepted` at
`("dave", "d@e.f", "pw", agree := false)` with an empty session. -/
theorem signUp_termsNotAccepted_witness :
    (handleSignUp JsPlatform.web ⟨"dave", "d@e.f", "pw", false⟩ none).error
        = some SignUpError.TermsNotAccepted ∧
    (handleSignUp JsPlatform.web ⟨"dave", "d@e.f", "pw", false⟩ none).sessionAfter
        = none ∧
    (handleSignUp JsPlatform.web ⟨"dave", "d@e.f", "pw", false⟩ none).navigatedToDashboard
        = false :=
  signUp_termsNotAccepted JsPlatform.web ⟨"dave", "d@e.f", "pw", false⟩ none
    (by decide) (by decide) (by decide) (by decide) rfl

/-- C1 (counterexample): on the web platform a fully valid sign-up
(non-empty fields, regex-valid email, terms accepted) navigates to the
dashboard but leaves the `UserContext` session username unchanged (`none`),
so the claim "the sign-up operation sets the session username to the
submitted username" fails as stated. -/
theorem signUp_web_session_cex :
    (("alice" : String) ≠ "" ∧ ("a@b.c" : String) ≠ "" ∧ ("secret" : String) ≠ "" ∧
      emailRegexTest "a@b.c" = true) ∧
    (handleSignUp JsPlatform.web ⟨"alice", "a@b.c", "secret", true⟩ none).error = none ∧
    (handleSignUp JsPlatform.web ⟨"alice", "a@b.c", "secret", true⟩ none).navigatedToDashboard
        = true ∧
    (handleSignUp JsPlatform.web ⟨"alice", "a@b.c", "secret", true⟩ none).sessionAfter = none ∧
    (handleSignUp JsPlatform.web ⟨"alice", "a@b.c", "secret", true⟩ none).sessionAfter
        ≠ some "alice" := by
  decide

/-- C1 (amended): a valid sign-up reports no error and navigates to the
dashboard passing the submitted username as a navigation parameter; the
session username is set to the submitted username on the native platform,
and is left unchanged on web. -/
theorem signUp_success (p : JsPlatform) (inp : SignUpInput) (s : Option String)
    (h1 : inp.username ≠ "") (h2 : inp.email ≠ "") (h3 : inp.password ≠ "")
    (h4 : emailRegexTest inp.email = true) (h5 : inp.agree = true) :
    (handleSignUp p inp s).error = none ∧
    (handleSignUp p inp s).navigatedToDashboard = true ∧
    (handleSignUp p inp s).navParamUsername = some inp.username ∧
    (handleSignUp p inp s).sessionAfter =
      (match p with
       | JsPlatform.native => some inp.username
       | JsPlatform.web => s) := by
  have hor : ¬(inp.username = "" ∨ inp.email = "" ∨ inp.password = "") :=
    fun hc => hc.elim h1 (fun hc2 => hc2.elim h2 h3)
  have hreg : ¬(emailRegexTest inp.email = false) := by simp [h4]
  have hagree : ¬(inp.agree = false) := by simp [h5]
  simp only [handleSignUp, if_neg hor, if_neg hreg, if_neg hagree]
  cases p
  · exact ⟨rfl, rfl, rfl, rfl⟩
  · exact ⟨rfl, rfl, rfl, rfl⟩

/-- Witness for `signUp_success` at the native-platform input
`("bob", "x@y.z", "pw", agree := true)` with an empty session. -/
theorem signUp_success_witness :
    (handleSignUp JsPlatform.native ⟨"bob", "x@y.z", "pw", true⟩ none).error = none ∧
    (handleSignUp JsPlatform.native ⟨"bob", "x@y.z", "pw", true⟩ none).navigatedToDashboard
        = true ∧
    (handleSignUp JsPlatform.native ⟨"bob", "x@y.z", "pw", true⟩ none).navParamUsername
        = some "bob" ∧
    (handleSignUp JsPlatform.native ⟨"bob", "x@y.z", "pw", true⟩ none).sessionAfter
        = some "bob" :=
  signUp_success JsPlatform.native ⟨"bob", "x@y.z", "pw", true⟩ none
    (by decide) (by decide) (by decide) (by decide) rfl

/-- C5: `handleLogin` with non-empty username and password shows no error,
sets the session username to the submitted username, and resets navigation
to the dashboard; with an empty username or password it shows the error
alert, leaves the session unchanged, and does not navigate. -/
theorem handleLogin_spec (u pw : String) (s : Option String) :
    (u ≠ "" → pw ≠ "" →
      (handleLogin u pw s).errorShown = false ∧
      (handleLogin u pw s).sessionAfter = some u ∧
      (handleLogin u pw s).navigatedToDashboard = true) ∧
    ((u = "" ∨ pw = "") →
      (handleLogin u pw s).errorShown = true ∧
      (handleLogin u pw s).sessionAfter = s ∧
      (handleLogin u pw s).navigatedToDashboard = false) := by
  constructor
  · intro h1 h2
    have hor : ¬(u = "" ∨ pw = "") := fun hc => hc.elim h1 h2
    simp [handleLogin, if_neg hor]
  · intro h
    simp [handleLogin, if_pos h]

/-- Witness for `handleLogin_spec`: the success half at
`("alice", "pw")` over an empty session and the failure half at an empty
username over session `"bob"`. -/
theorem handleLogin_spec_witness :
    ((handleLogin "alice" "pw" none).errorShown = false ∧
     (handleLogin "alice" "pw" none).sessionAfter = some "alice" ∧
     (handleLogin "alice" "pw" none).navigatedToDashboard = true) ∧
    ((handleLogin "" "pw" (some "bob")).errorShown = true ∧
     (handleLogin "" "pw" (some "bob")).sessionAfter = some "bob" ∧
     (handleLogin "" "pw" (some "bob")).navigatedToDashboard = false) :=
  ⟨(handleLogin_spec "alice" "pw" none).1 (by decide) (by decide),
   (handleLogin_spec "" "pw" (some "bob")).2 (Or.inl rfl)⟩

/-- C6: `handleFilterPress` follows the strict cycle
all → az → popular → all, and three activations from `all` return to
`all`. -/
theorem filterMode_cycle :
    handleFilterPress FilterMode.all = FilterMode.az ∧
    handleFilterPress FilterMode.az = FilterMode.popular ∧
    handleFilterPress FilterMode.popular = FilterMode.all ∧
    handleFilterPress (handleFilterPress (handleFilterPress FilterMode.all))
        = FilterMode.all :=
  ⟨rfl, rfl, rfl, rfl⟩

/-- C7: on the three-entry sample catalog with an empty query, alphabetical
mode yields exactly [Butterhead, Oak Leaf, Romaine], and popularity mode
yields [Romaine, Oak Leaf, Butterhead] — both `popular` entries first, in
their original relative order, then the non-popular entry. -/
theorem filterSort_sample_orders :
    (filteredLettucesOf sampleCatalog "" FilterMode.az).map Lettuce.name
        = ["Butterhead", "Oak Leaf", "Romaine"] ∧
    (filteredLettucesOf sampleCatalog "" FilterMode.popular).map Lettuce.name
        = ["Romaine", "Oak Leaf", "Butterhead"] := by
  decide

/-- C8: for every query and filter mode, evaluating `filteredLettuces`
leaves the `originalLettuces` array unchanged (the filter step allocates a
fresh array and the in-place sort mutates only that copy), and the view it
produces is the pure filter-then-sort of the catalog. -/
theorem filteredLettuces_preserves_original (q : String) (m : FilterMode) :
    (filteredLettucesRun q m).originalAfter = originalLettuces ∧
    (filteredLettucesRun q m).view = filteredLettucesOf originalLettuces q m :=
  ⟨rfl, rfl⟩

/-- C9: the query "oak" against the full static catalog returns exactly the
single "Oak Leaf" entry, in every filter mode. -/
theorem search_oak_exact (m : FilterMode) :
    filteredLettucesOf originalLettuces "oak" m
        = [{ id := "3", name := "Oak Leaf", image := "../assets/lettuce_oakleaf.png",
             popular := some true }] := by
  cases m <;> decide

/-- C10: the modal/tooltip visibility toggle (replace the flag by its
negation) applied twice returns every flag to its original value. -/
theorem toggle_twice_id (b : Bool) : toggleFlag (toggleFlag b) = b := by
  cases b <;> rfl
